import Mathlib

/-!
# Verification of the KLIMATA credential store and session gate (src/app.py)

Shallow embedding of the authentication core of the KLIMATA dashboard:

* the credential store (`hash_password`, `create_user`, `check_user_password`,
  `update_user_password`, `delete_user`), whose backing sqlite table
  `users(username TEXT PRIMARY KEY, password_hash TEXT)` is modelled as an
  association list with unique keys maintained by the operations themselves;
* the session gate: `st.session_state` (`logged_in`, `username`, `page`)
  together with the module-level router and the per-page event handlers
  (`show_login_page`, `show_signup_page`, `show_manage_account_page`, and the
  sidebar navigation of `build_dashboard`).

Stateful sqlite calls become explicit state passing: each operation takes the
table and returns its result paired with the new table.
-/

namespace Klimata

/-- The `users` table: a row is `(username, password_hash)`.  The sqlite
`PRIMARY KEY` constraint means the operations never produce two rows with the
same username. -/
abbrev Db := List (String × String)

/-- Model of `hash_password` (src/app.py:28-29), which returns
`hashlib.sha256(str.encode(password)).hexdigest()`.  `hashlib` is an external
library; it is modelled as a deterministic injective encoding of the password,
building in the spec's assumption that the digest is deterministic and that two
different passwords do not collide. -/
def hash_password (password : String) : String :=
  "sha256$" ++ password

/-- Whether a row for `username` exists — the condition under which the
`INSERT` of `create_user` raises `sqlite3.IntegrityError` on the
`username TEXT PRIMARY KEY` column. -/
def hasUser (db : Db) (username : String) : Bool :=
  db.any (fun r => r.1 == username)

/-- Model of `create_user` (src/app.py:43-54): `INSERT INTO users` of
`(username, hash_password(password))`; on `sqlite3.IntegrityError` (duplicate
primary key) it returns `False` and commits nothing, otherwise `True`. -/
def create_user (db : Db) (username password : String) : Bool × Db :=
  if hasUser db username then
    (false, db)
  else
    (true, (username, hash_password password) :: db)

/-- Model of `check_user_password` (src/app.py:56-64):
`SELECT password_hash FROM users WHERE username = ?` with `fetchone()`; if a
row is found, compare its stored hash with the digest of the supplied
password, otherwise return `False`. -/
def check_user_password (db : Db) (username password : String) : Bool :=
  match db.find? (fun r => r.1 == username) with
  | some r => r.2 == hash_password password
  | none => false

/-- Model of `update_user_password` (src/app.py:66-73):
`UPDATE users SET password_hash = ? WHERE username = ?` — overwrites the hash
of every row whose key matches (at most one, by the primary key), touches no
other row, and returns `True` unconditionally. -/
def update_user_password (db : Db) (username new_password : String) : Bool × Db :=
  (true,
    db.map (fun r =>
      if r.1 == username then (r.1, hash_password new_password) else r))

/-- Model of `delete_user` (src/app.py:75-81):
`DELETE FROM users WHERE username = ?` — removes every row whose key matches
and returns `True` unconditionally, also when no row matches. -/
def delete_user (db : Db) (username : String) : Bool × Db :=
  (true, db.filter (fun r => r.1 != username))

/-- The combined mutable state of one interactive session: the three
`st.session_state` keys the router and handlers use (src/app.py:535-538,
468-475, 508-515) plus the backing `users` table.  `username := none` models
the key being absent from `st.session_state` (it is `pop`ped on logout). -/
structure AppState where
  logged_in : Bool
  username : Option String
  page : String
  db : Db
deriving Repr, DecidableEq

/-- The four views the app can draw. -/
inductive View where
  | Login
  | SignUp
  | Dashboard
  | ManageAccount
deriving Repr, DecidableEq

/-- Model of the module-level main router (src/app.py:540-551): with
`logged_in` set it draws the dashboard for `page == "Dashboard"` and the
manage-account page for `page == "Manage Account"`; with `logged_in` unset it
draws the login form for `page == "Login"` and the signup form for
`page == "Sign Up"`; any other combination draws nothing (`none`). -/
def route (logged_in : Bool) (page : String) : Option View :=
  if logged_in then
    if page == "Dashboard" then some View.Dashboard
    else if page == "Manage Account" then some View.ManageAccount
    else none
  else
    if page == "Login" then some View.Login
    else if page == "Sign Up" then some View.SignUp
    else none

/-- Model of the submit branch of `show_login_page` (src/app.py:463-480): on
`check_user_password` success set `logged_in`, `username` and
`page = "Dashboard"`; on failure change nothing and show the generic error.
The second component is the error message displayed, if any. -/
def login_submit (s : AppState) (u p : String) : AppState × Option String :=
  if check_user_password s.db u p then
    ({ s with logged_in := true, username := some u, page := "Dashboard" }, none)
  else
    (s, some "😕 User not known or password incorrect")

/-- Model of the submit branch of `show_signup_page` (src/app.py:490-501):
empty-field and mismatch validation happen here in the UI; only then is
`create_user` called, and only on its success does `page` change to
`"Login"`.  (Python `not username` is true exactly for the empty string.)
The second component is the error message displayed, if any. -/
def signup_submit (s : AppState) (u p p2 : String) : AppState × Option String :=
  if u == "" || p == "" || p2 == "" then
    (s, some "Please fill in all fields.")
  else if p != p2 then
    (s, some "Passwords do not match.")
  else
    let r := create_user s.db u p
    if r.1 then
      ({ s with db := r.2, page := "Login" }, none)
    else
      (s, some "Username already exists.")

/-- The events handled by `show_manage_account_page` (src/app.py:506-528):
the two sidebar buttons and the change-password form.  The page offers no
other control. -/
inductive ManageEvent where
  | backToDashboard
  | logOut
  | submitUpdatePassword (new_password confirm_new_password : String)
deriving Repr, DecidableEq

/-- Model of `show_manage_account_page` (src/app.py:506-528): "Back to
Dashboard" sets `page`; "Log Out" clears `logged_in`, pops `username` and
sets `page = "Login"`; the update-password form validates the two fields and
then calls `update_user_password` on the session's username, changing no
session field.  (The page is rendered only with `username` set; with it
absent the handler body would fault before reaching the store, so the store
is left untouched.)  The second component is the error message, if any. -/
def manage_account_step (s : AppState) (e : ManageEvent) : AppState × Option String :=
  match e with
  | ManageEvent.backToDashboard => ({ s with page := "Dashboard" }, none)
  | ManageEvent.logOut =>
      ({ s with logged_in := false, username := none, page := "Login" }, none)
  | ManageEvent.submitUpdatePassword p p2 =>
      if p == "" || p2 == "" then
        (s, some "Please fill in both fields.")
      else if p != p2 then
        (s, some "New passwords do not match.")
      else
        match s.username with
        | some u => ({ s with db := (update_user_password s.db u p).2 }, none)
        | none => (s, none)

/-- Every user interaction the app reacts to, across all four pages. -/
inductive Event where
  | loginSubmit (u p : String)
  | clickSignUp
  | signupSubmit (u p p2 : String)
  | backToLogin
  | navManageAccount
  | navLogOut
  | manage (e : ManageEvent)
deriving Repr, DecidableEq

/-- One interaction step of the whole app: the event is handled by the page
the router currently draws (a control that is not on the rendered page cannot
fire, so any other pairing leaves the state unchanged).  `clickSignUp` is the
"Need an account? Sign Up" button (src/app.py:478-480), `backToLogin` the
"Back to Login" button (src/app.py:502-504), `navManageAccount` and
`navLogOut` the dashboard sidebar menu entries (src/app.py:166-173). -/
def step (s : AppState) (e : Event) : AppState :=
  match route s.logged_in s.page, e with
  | some View.Login, Event.loginSubmit u p => (login_submit s u p).1
  | some View.Login, Event.clickSignUp => { s with page := "Sign Up" }
  | some View.SignUp, Event.signupSubmit u p p2 => (signup_submit s u p p2).1
  | some View.SignUp, Event.backToLogin => { s with page := "Login" }
  | some View.Dashboard, Event.navManageAccount => { s with page := "Manage Account" }
  | some View.Dashboard, Event.navLogOut =>
      { s with logged_in := false, username := none, page := "Login" }
  | some View.ManageAccount, Event.manage e => (manage_account_step s e).1
  | _, _ => s

/-- The state at process start (src/app.py:535-538): `logged_in` defaults to
`False`, `page` to `"Login"`, the `username` key is absent; the `users` table
is whatever the pre-existing database file holds. -/
def initialState (db : Db) : AppState :=
  { logged_in := false, username := none, page := "Login", db := db }

/-- The states one interactive session can reach from process start. -/
inductive Reachable : AppState → Prop where
  | init (db : Db) : Reachable (initialState db)
  | step {s : AppState} (e : Event) : Reachable s → Reachable (step s e)

/-- A concrete authenticated session sitting on the manage-account page, used
to probe which transitions that page offers. -/
def manageDemoState : AppState :=
  { logged_in := true, username := some "alice", page := "Manage Account",
    db := [("alice", hash_password "secret1")] }

/-! ## Helper lemmas about the store -/

/-- The modelled digest is injective (the model's rendering of the spec's
collision-freedom assumption on SHA-256). -/
theorem hash_password_injective {p q : String}
    (h : hash_password p = hash_password q) : p = q := by
  unfold hash_password at h
  have hd : ("sha256$" ++ p).data = ("sha256$" ++ q).data := by rw [h]
  simp only [String.data_append] at hd
  exact String.ext (List.append_cancel_left hd)

theorem hasUser_eq_false_iff (db : Db) (u : String) :
    hasUser db u = false ↔ ∀ r ∈ db, r.1 ≠ u := by
  simp [hasUser, List.any_eq_true]

/-- A username with no row in the table never verifies. -/
theorem check_eq_false_of_not_has (db : Db) (u p : String)
    (h : hasUser db u = false) : check_user_password db u p = false := by
  have hnone : db.find? (fun r => r.1 == u) = none := by
    rw [List.find?_eq_none]
    intro r hr
    simpa using (hasUser_eq_false_iff db u).mp h r hr
  simp [check_user_password, hnone]

/-- On a table with unique usernames, verification succeeds exactly when the
row `(u, digest p)` is present. -/
theorem check_true_iff_mem (u p : String) :
    ∀ db : Db, (db.map Prod.fst).Nodup →
      (check_user_password db u p = true ↔ (u, hash_password p) ∈ db) := by
  intro db
  induction db with
  | nil => simp [check_user_password]
  | cons r t ih =>
    intro hnd
    simp only [List.map_cons, List.nodup_cons] at hnd
    by_cases hk : r.1 = u
    · subst hk
      have hfind : ((r :: t).find? (fun r' => r'.1 == r.1)) = some r := by
        simp [List.find?_cons]
      constructor
      · intro hchk
        simp only [check_user_password, hfind] at hchk
        have h2 : r.2 = hash_password p := by simpa using hchk
        have h3 : (r.1, hash_password p) = r := by rw [← h2]
        rw [h3]
        exact List.mem_cons_self _ _
      · intro hmem
        rcases List.mem_cons.mp hmem with heq | hmem'
        · have h2 : hash_password p = r.2 := congrArg Prod.snd heq
          simp [check_user_password, hfind, h2]
        · exact absurd (List.mem_map_of_mem Prod.fst hmem') (by simpa using hnd.1)
    · have hkb : (r.1 == u) = false := by simpa using hk
      have hfind : ((r :: t).find? (fun r' => r'.1 == u)) = t.find? (fun r' => r'.1 == u) := by
        simp [List.find?_cons, hkb]
      have hmem : ((u, hash_password p) ∈ r :: t) ↔ (u, hash_password p) ∈ t := by
        constructor
        · intro hm
          rcases List.mem_cons.mp hm with heq | hm'
          · exact absurd (congrArg Prod.fst heq).symm hk
          · exact hm'
        · exact fun hm => List.mem_cons_of_mem _ hm
      rw [hmem, ← ih hnd.2]
      simp [check_user_password, hfind]

/-- The row rewrite of `update_user_password` never changes a row's key. -/
theorem updateRow_fst (u h' : String) (r : String × String) :
    (if r.1 == u then (r.1, h') else r).1 = r.1 := by
  split <;> rfl

/-- `UPDATE ... WHERE username = ?` on a present username leaves exactly the
fresh digest in the row the verify lookup finds. -/
theorem check_update_found (u p_new : String) : ∀ db : Db, hasUser db u = true →
    ((update_user_password db u p_new).2).find? (fun r => r.1 == u)
      = some (u, hash_password p_new) := by
  intro db
  induction db with
  | nil => intro h; simp [hasUser] at h
  | cons r t ih =>
    intro h
    by_cases hk : r.1 = u
    · subst hk
      simp [update_user_password, List.find?_cons]
    · have hkf : (r.1 == u) = false := by simpa using hk
      have ht : hasUser t u = true := by
        simpa [hasUser, List.any_cons, hkf] using h
      have hih := ih ht
      simp only [update_user_password] at hih ⊢
      rw [List.map_cons, List.find?_cons]
      have hb : ((if r.1 == u then (r.1, hash_password p_new) else r).1 == u) = false := by
        rw [updateRow_fst]; exact hkf
      rw [hb]
      exact hih

/-- `update_user_password` changes no row's key, so row existence is untouched
for every username. -/
theorem hasUser_update (db : Db) (w p u : String) :
    hasUser (update_user_password db w p).2 u = hasUser db u := by
  unfold update_user_password hasUser
  simp only
  induction db with
  | nil => rfl
  | cons r t ih =>
    simp only [List.map_cons, List.any_cons, ih, updateRow_fst]

/-- When no row matches, `update_user_password` leaves the table unchanged. -/
theorem update_map_id (db : Db) (u p_new : String) (h : hasUser db u = false) :
    (update_user_password db u p_new).2 = db := by
  unfold update_user_password
  simp only
  have hall : ∀ r ∈ db, (if r.1 == u then (r.1, hash_password p_new) else r) = r := by
    intro r hr
    have : r.1 ≠ u := (hasUser_eq_false_iff db u).mp h r hr
    simp [this]
  simpa using List.map_congr_left hall

/-- Deleting a username empties its rows: the verify lookup finds nothing. -/
theorem delete_find?_none (db : Db) (u : String) :
    ((delete_user db u).2).find? (fun r => r.1 == u) = none := by
  rw [List.find?_eq_none]
  intro r hr
  have := (List.mem_filter.mp hr).2
  simp only [bne_iff_ne, ne_eq, decide_eq_true_eq] at this ⊢
  simpa using this

/-- After a delete, the username has no row at all. -/
theorem delete_hasUser_false (db : Db) (u : String) :
    hasUser (delete_user db u).2 u = false := by
  rw [hasUser_eq_false_iff]
  intro r hr
  have := (List.mem_filter.mp hr).2
  simpa using this

/-- After a delete, no password verifies for the deleted username. -/
theorem delete_check_false (db : Db) (u p : String) :
    check_user_password (delete_user db u).2 u p = false := by
  exact check_eq_false_of_not_has _ _ _ (delete_hasUser_false db u)

/-! ## Helper lemmas about the session gate -/

/-- The update-password form of the manage-account page never changes the
login flag. -/
theorem manage_update_logged_in (s : AppState) (p p2 : String) :
    (manage_account_step s (ManageEvent.submitUpdatePassword p p2)).1.logged_in
      = s.logged_in := by
  by_cases h1 : (p == "" || p2 == "") = true
  · simp [manage_account_step, h1]
  · by_cases h2 : (p != p2) = true
    · simp [manage_account_step, h1, h2]
    · cases hu : s.username <;> simp [manage_account_step, h1, h2, hu]

/-- The update-password form of the manage-account page never changes the
session username. -/
theorem manage_update_username (s : AppState) (p p2 : String) :
    (manage_account_step s (ManageEvent.submitUpdatePassword p p2)).1.username
      = s.username := by
  by_cases h1 : (p == "" || p2 == "") = true
  · simp [manage_account_step, h1]
  · by_cases h2 : (p != p2) = true
    · simp [manage_account_step, h1, h2]
    · cases hu : s.username <;> simp [manage_account_step, h1, h2, hu]

/-- No manage-account event adds or removes a row for any username: the page
has nothing that calls `delete_user` (or `create_user`). -/
theorem manage_step_hasUser (s : AppState) (e : ManageEvent) (u : String) :
    hasUser (manage_account_step s e).1.db u = hasUser s.db u := by
  cases e with
  | backToDashboard => rfl
  | logOut => rfl
  | submitUpdatePassword p p2 =>
    by_cases h1 : (p == "" || p2 == "") = true
    · simp [manage_account_step, h1]
    · by_cases h2 : (p != p2) = true
      · simp [manage_account_step, h1, h2]
      · cases hu : s.username with
        | none => simp [manage_account_step, h1, h2, hu]
        | some w => simp [manage_account_step, h1, h2, hu, hasUser_update]

/-- The signup handler only ever touches `db` and `page`: the login flag and
the session username come out unchanged on every branch. -/
theorem signup_submit_fields (s : AppState) (u p p2 : String) :
    (signup_submit s u p p2).1.logged_in = s.logged_in
    ∧ (signup_submit s u p p2).1.username = s.username := by
  cases hb1 : (u == "" || p == "" || p2 == "") <;>
    cases hb2 : (p != p2) <;>
      cases hb3 : (create_user s.db u p).1 <;>
        simp [signup_submit, hb1, hb2, hb3]

/-- One app step preserves the authenticated-iff-username-present property. -/
theorem step_inv (t : AppState) (e : Event)
    (ih : t.logged_in = true ↔ t.username.isSome = true) :
    (step t e).logged_in = true ↔ (step t e).username.isSome = true := by
  cases hv : route t.logged_in t.page with
  | none => cases e <;> simp [step, hv, ih]
  | some v =>
    cases v with
    | Login =>
      cases e with
      | loginSubmit u p =>
        simp only [step, hv]
        cases hc : check_user_password t.db u p <;> simp [login_submit, hc, ih]
      | clickSignUp => simp [step, hv, ih]
      | signupSubmit u p p2 => simp [step, hv, ih]
      | backToLogin => simp [step, hv, ih]
      | navManageAccount => simp [step, hv, ih]
      | navLogOut => simp [step, hv, ih]
      | manage me => simp [step, hv, ih]
    | SignUp =>
      cases e with
      | signupSubmit u p p2 =>
        simp only [step, hv]
        have hf := signup_submit_fields t u p p2
        rw [hf.1, hf.2]
        exact ih
      | loginSubmit u p => simp [step, hv, ih]
      | clickSignUp => simp [step, hv, ih]
      | backToLogin => simp [step, hv, ih]
      | navManageAccount => simp [step, hv, ih]
      | navLogOut => simp [step, hv, ih]
      | manage me => simp [step, hv, ih]
    | Dashboard => cases e <;> simp [step, hv, ih]
    | ManageAccount =>
      cases e with
      | manage me =>
        cases me with
        | backToDashboard => simp [step, hv, manage_account_step, ih]
        | logOut => simp [step, hv, manage_account_step]
        | submitUpdatePassword p p2 =>
          simp only [step, hv]
          rw [manage_update_logged_in, manage_update_username]
          exact ih
      | loginSubmit u p => simp [step, hv, ih]
      | clickSignUp => simp [step, hv, ih]
      | signupSubmit u p p2 => simp [step, hv, ih]
      | backToLogin => simp [step, hv, ih]
      | navManageAccount => simp [step, hv, ih]
      | navLogOut => simp [step, hv, ih]

/-! ## Claim theorems -/

/-- C1: whenever the session's `logged_in` flag is false, the main router
draws the login form, the signup form, or nothing at all — never the
Dashboard or ManageAccount view, whatever string `page` holds. -/
theorem router_unauthenticated_guard (page : String) :
    route false page = none
    ∨ route false page = some View.Login
    ∨ route false page = some View.SignUp := by
  unfold route
  cases h1 : (page == "Login") <;> cases h2 : (page == "Sign Up") <;> simp [h1, h2]

/-- C2: on a table with unique usernames, `check_user_password u p` returns
true exactly when a row for `u` exists whose stored hash is the digest of
`p`; a never-created username returns the same `false` a wrong password
does, so the two cases are indistinguishable to the caller. -/
theorem check_user_password_spec (db : Db) (u p : String)
    (hnd : (db.map Prod.fst).Nodup) :
    (check_user_password db u p = true ↔ (u, hash_password p) ∈ db)
    ∧ (hasUser db u = false → check_user_password db u p = false) :=
  ⟨check_true_iff_mem u p db hnd, fun h => check_eq_false_of_not_has db u p h⟩

theorem check_user_password_spec_witness :
    (check_user_password [("alice", hash_password "secret1")] "alice" "secret1" = true
      ↔ ("alice", hash_password "secret1") ∈ [("alice", hash_password "secret1")])
    ∧ check_user_password [("alice", hash_password "secret1")] "bob" "secret1" = false := by
  have h1 := check_user_password_spec [("alice", hash_password "secret1")]
    "alice" "secret1" (by decide)
  have h2 := check_user_password_spec [("alice", hash_password "secret1")]
    "bob" "secret1" (by decide)
  exact ⟨h1.1, h2.2 (by decide)⟩

/-- C3: `create_user` on a taken username returns `false` and leaves the
table exactly as it was; consequently on a fresh username a create followed
by a second create of the same username returns `true` then `false`. -/
theorem create_user_conflict_spec (db : Db) (u p p' : String)
    (hfresh : hasUser db u = false) :
    (create_user db u p).1 = true
    ∧ create_user (create_user db u p).2 u p' = (false, (create_user db u p).2)
    ∧ ∀ db' : Db, hasUser db' u = true → create_user db' u p' = (false, db') := by
  have hdup : ∀ db' : Db, hasUser db' u = true → create_user db' u p' = (false, db') := by
    intro db' h
    simp [create_user, h]
  have h1 : (create_user db u p).1 = true := by simp [create_user, hfresh]
  have h2 : hasUser (create_user db u p).2 u = true := by
    have hdb : (create_user db u p).2 = (u, hash_password p) :: db := by
      simp [create_user, hfresh]
    rw [hdb]
    simp [hasUser]
  exact ⟨h1, hdup _ h2, hdup⟩

theorem create_user_conflict_spec_witness :
    (create_user [] "alice" "pw1").1 = true
    ∧ create_user (create_user [] "alice" "pw1").2 "alice" "pw2"
        = (false, (create_user [] "alice" "pw1").2)
    ∧ create_user [("alice", hash_password "pw1")] "alice" "pw2"
        = (false, [("alice", hash_password "pw1")]) := by
  have h := create_user_conflict_spec [] "alice" "pw1" "pw2" (by decide)
  exact ⟨h.1, h.2.1, h.2.2 [("alice", hash_password "pw1")] (by decide)⟩

/-- C5: from the login page of a logged-out session, a submit whose
credentials verify turns the session authenticated on the dashboard with the
username recorded and no error; a submit that fails verification leaves
every session field as it was (still logged out on the login page) and shows
the generic invalid-credentials error. -/
theorem login_page_transition (s : AppState) (u p : String)
    (hauth : s.logged_in = false) (hpage : s.page = "Login") :
    (check_user_password s.db u p = true →
      (login_submit s u p).1.logged_in = true
      ∧ (login_submit s u p).1.username = some u
      ∧ (login_submit s u p).1.page = "Dashboard"
      ∧ (login_submit s u p).2 = none)
    ∧ (check_user_password s.db u p = false →
      (login_submit s u p).1 = s
      ∧ (login_submit s u p).1.logged_in = false
      ∧ (login_submit s u p).1.page = "Login"
      ∧ (login_submit s u p).2 = some "😕 User not known or password incorrect") := by
  constructor
  · intro hc
    simp [login_submit, hc]
  · intro hc
    simp [login_submit, hc, hauth, hpage]

theorem login_page_transition_witness :
    ((login_submit (initialState [("alice", hash_password "secret1")])
        "alice" "secret1").1.logged_in = true
      ∧ (login_submit (initialState [("alice", hash_password "secret1")])
          "alice" "secret1").1.username = some "alice"
      ∧ (login_submit (initialState [("alice", hash_password "secret1")])
          "alice" "secret1").1.page = "Dashboard")
    ∧ ((login_submit (initialState [("alice", hash_password "secret1")])
          "alice" "wrong").1 = initialState [("alice", hash_password "secret1")]
      ∧ (login_submit (initialState [("alice", hash_password "secret1")])
          "alice" "wrong").2 = some "😕 User not known or password incorrect") := by
  have hA := login_page_transition (initialState [("alice", hash_password "secret1")])
    "alice" "secret1" (by decide) (by decide)
  have hB := login_page_transition (initialState [("alice", hash_password "secret1")])
    "alice" "wrong" (by decide) (by decide)
  have hA1 := hA.1 (by decide)
  have hB1 := hB.2 (by decide)
  exact ⟨⟨hA1.1, hA1.2.1, hA1.2.2.1⟩, hB1.1, hB1.2.2.2⟩

/-- C6: after a successful `create_user u p` (and before any further mutation
of `u`'s row), `check_user_password u p` returns true and
`check_user_password u p_wrong` returns false for any other password — the
create/verify round-trip through the digest. -/
theorem create_verify_roundtrip (db : Db) (u p p_wrong : String)
    (hcreated : (create_user db u p).1 = true) (hne : p_wrong ≠ p) :
    check_user_password (create_user db u p).2 u p = true
    ∧ check_user_password (create_user db u p).2 u p_wrong = false := by
  by_cases htaken : hasUser db u = true
  · simp [create_user, htaken] at hcreated
  · have hf : hasUser db u = false := by simpa using htaken
    have hdb : (create_user db u p).2 = (u, hash_password p) :: db := by
      simp [create_user, hf]
    rw [hdb]
    constructor
    · simp [check_user_password, List.find?_cons]
    · have hhash : (hash_password p == hash_password p_wrong) = false := by
        apply beq_eq_false_iff_ne.mpr
        intro hcontra
        exact hne (hash_password_injective hcontra).symm
      simp [check_user_password, List.find?_cons, hhash]

theorem create_verify_roundtrip_witness :
    check_user_password (create_user [] "alice" "secret1").2 "alice" "secret1" = true
    ∧ check_user_password (create_user [] "alice" "secret1").2 "alice" "wrong" = false := by
  have h := create_verify_roundtrip [] "alice" "secret1" "wrong" (by decide) (by decide)
  exact h

/-- C7: `update_user_password` always returns true; on an existing username
the new password then verifies and any different old password no longer
does; on an absent username it leaves the table exactly unchanged while
still returning true. -/
theorem update_password_spec (db : Db) (u p_new p_old : String)
    (hne : p_old ≠ p_new) :
    (update_user_password db u p_new).1 = true
    ∧ (hasUser db u = true →
        check_user_password (update_user_password db u p_new).2 u p_new = true
        ∧ check_user_password (update_user_password db u p_new).2 u p_old = false)
    ∧ (hasUser db u = false → (update_user_password db u p_new).2 = db) := by
  refine ⟨rfl, ?_, fun h => update_map_id db u p_new h⟩
  intro h
  have hfind := check_update_found u p_new db h
  constructor
  · simp [check_user_password, hfind]
  · have hhash : (hash_password p_new == hash_password p_old) = false := by
      apply beq_eq_false_iff_ne.mpr
      intro hcontra
      exact hne (hash_password_injective hcontra).symm
    simp [check_user_password, hfind, hhash]

theorem update_password_spec_witness :
    (update_user_password [("alice", hash_password "old")] "alice" "new").1 = true
    ∧ check_user_password
        (update_user_password [("alice", hash_password "old")] "alice" "new").2
        "alice" "new" = true
    ∧ check_user_password
        (update_user_password [("alice", hash_password "old")] "alice" "new").2
        "alice" "old" = false
    ∧ (update_user_password [] "alice" "new").2 = [] := by
  have hA := update_password_spec [("alice", hash_password "old")]
    "alice" "new" "old" (by decide)
  have hB := update_password_spec [] "alice" "new" "old" (by decide)
  have hA1 := hA.2.1 (by decide)
  exact ⟨hA.1, hA1.1, hA1.2, hB.2.2 (by decide)⟩

/-- C8: `delete_user` reports success even on an absent username, afterwards
no password verifies for the deleted username, the username is immediately
reusable by `create_user`, and deleting twice equals deleting once. -/
theorem delete_user_spec (db : Db) (u p p' : String) :
    (delete_user db u).1 = true
    ∧ check_user_password (delete_user db u).2 u p = false
    ∧ (create_user (delete_user db u).2 u p').1 = true
    ∧ delete_user (delete_user db u).2 u = delete_user db u := by
  refine ⟨rfl, delete_check_false db u p, ?_, ?_⟩
  · simp [create_user, delete_hasUser_false db u]
  · have hself : ((delete_user db u).2).filter (fun r => r.1 != u)
        = (delete_user db u).2 := by
      apply List.filter_eq_self.mpr
      intro r hr
      exact (List.mem_filter.mp hr).2
    show (true, ((delete_user db u).2).filter (fun r => r.1 != u)) = delete_user db u
    rw [hself]
    rfl

/-- C10: the credential store itself validates nothing: an empty username or
an empty password is hashed and inserted like any other when its row is
absent; the empty-field rejection exists only in the signup form, which
reports "Please fill in all fields." and never reaches `create_user`. -/
theorem store_no_validation (db : Db) (s : AppState) (u p p2 : String)
    (hfresh_empty : hasUser db "" = false) (hfresh_u : hasUser db u = false) :
    create_user db "" p = (true, ("", hash_password p) :: db)
    ∧ create_user db u "" = (true, (u, hash_password "") :: db)
    ∧ signup_submit s "" p p2 = (s, some "Please fill in all fields.")
    ∧ signup_submit s u "" p2 = (s, some "Please fill in all fields.") := by
  refine ⟨?_, ?_, ?_, ?_⟩
  · simp [create_user, hfresh_empty]
  · simp [create_user, hfresh_u]
  · simp [signup_submit]
  · simp [signup_submit]

theorem store_no_validation_witness :
    create_user [] "" "pw" = (true, [("", hash_password "pw")])
    ∧ create_user [] "bob" "" = (true, [("bob", hash_password "")])
    ∧ signup_submit (initialState []) "" "pw" "pw"
        = (initialState [], some "Please fill in all fields.")
    ∧ signup_submit (initialState []) "bob" "" "pw"
        = (initialState [], some "Please fill in all fields.") := by
  have h := store_no_validation [] (initialState []) "bob" "pw" "pw"
    (by decide) (by decide)
  exact h

/-- C4 counterexample: in the concrete authenticated manage-account session
`manageDemoState`, no event of `show_manage_account_page` ends logged out on
the login page with the username cleared and `"alice"`'s former password no
longer verifying — the confirm-delete transition the claim describes does
not exist on that page (`delete_user`, src/app.py:75-81, is never called). -/
theorem no_confirm_delete_event :
    ¬ ∃ e : ManageEvent,
        (manage_account_step manageDemoState e).1.logged_in = false
        ∧ (manage_account_step manageDemoState e).1.page = "Login"
        ∧ (manage_account_step manageDemoState e).1.username = none
        ∧ check_user_password (manage_account_step manageDemoState e).1.db
            "alice" "secret1" = false := by
  rintro ⟨e, h1, h2, h3, h4⟩
  cases e with
  | backToDashboard => exact absurd h1 (by decide)
  | logOut => exact absurd h4 (by decide)
  | submitUpdatePassword p p2 =>
    rw [manage_update_logged_in] at h1
    exact absurd h1 (by decide)

/-- C4 amended: the manage-account page offers only back-to-dashboard,
log-out and update-password events, and none of them adds or removes any
username's row in the store (in particular none deletes the account); the
store-level `delete_user`, which the UI never calls, is the operation that
would remove the row, and after it no password verifies for that username. -/
theorem manage_account_no_delete (s : AppState) (e : ManageEvent) (u p : String) :
    hasUser (manage_account_step s e).1.db u = hasUser s.db u
    ∧ check_user_password (delete_user s.db u).2 u p = false :=
  ⟨manage_step_hasUser s e u, delete_check_false s.db u p⟩

/-- C9: in every session state reachable from process start, the session
username is present exactly when the session is authenticated: the initial
state has neither, a successful login sets both, the two log-out paths clear
both, and every other transition touches neither. -/
theorem session_username_invariant (s : AppState) (h : Reachable s) :
    s.logged_in = true ↔ s.username.isSome = true := by
  induction h with
  | init db => simp [initialState]
  | step e hr ih => exact step_inv _ e ih

theorem session_username_invariant_witness :
    (initialState []).logged_in = true ↔ (initialState []).username.isSome = true :=
  session_username_invariant (initialState []) (Reachable.init [])

end Klimata
